import Mathlib

/-!
Verification development for the weekend_denso traceability-tag service.

The definitions below are a shallow embedding of the Python source:
  - app/services/print_service.py   (result decoder, print / re-print orchestration)
  - app/services/rework_service.py  (rework decoder, validate-tag, rework print)
  - app/repositories/traceability_repo.py (login lookups, field lock registry)
  - app/services/traceability_service.py  (login orchestration)

External collaborators (database lookups, the stored-procedure executor,
JWT token creation, the clock) are modelled as explicit oracle parameters;
Python dictionaries/rows are modelled as structures with Option-typed
columns (none = NULL / absent key).
-/

namespace WeekendDenso

/-! ## Python string primitives -/

/-- Python single-character str.split over a character list:
splitting the empty list yields one empty field, each separator
character starts a new field. -/
def splitChAux (sep : Char) : List Char → List (List Char)
  | [] => [[]]
  | c :: cs =>
    let r := splitChAux sep cs
    if c = sep then [] :: r
    else
      match r with
      | [] => [[c]]
      | h :: t => (c :: h) :: t

/-- Python s.split(sep) for a one-character separator string. -/
def pySplit (sep : Char) (s : String) : List String :=
  (splitChAux sep s.data).map (fun cs => String.mk cs)

/-- Python s.startswith(c) for a one-character argument. -/
def pyStartsWith (s : String) (c : Char) : Bool :=
  match s.data with
  | [] => false
  | d :: _ => d = c

/-- Python `a or b` on strings: the empty string is falsy. -/
def pyOr (a b : String) : String :=
  if a = "" then b else a

/-- Whitespace characters stripped by Python int() conversion. -/
def isPySpace (c : Char) : Bool :=
  c = ' ' || c = '\t' || c = '\n' || c = '\r'

/-- Strip leading and trailing whitespace from a character list. -/
def stripList (l : List Char) : List Char :=
  ((l.dropWhile isPySpace).reverse.dropWhile isPySpace).reverse

/-- Value of a non-empty all-digit character list, none otherwise. -/
def digitsVal? : List Char → Option Nat
  | [] => none
  | l =>
    if l.all Char.isDigit then
      some (l.foldl (fun a c => a * 10 + (c.toNat - 48)) 0)
    else
      none

/-- Python int(s): strips whitespace, accepts an optional sign followed by
digits; any other shape raises ValueError, modelled as none. -/
def pyInt? (s : String) : Option Int :=
  match stripList s.data with
  | '-' :: rest => (digitsVal? rest).map (fun n => -(n : Int))
  | '+' :: rest => (digitsVal? rest).map (fun n => (n : Int))
  | l => (digitsVal? l).map (fun n => (n : Int))

/-! ## Result decoder helpers (print_service._parse_print_result locals) -/

/-- `_safe(idx, default="")`: parts[idx] when in range, else the default. -/
def safeStr (parts : List String) (idx : Nat) : String :=
  parts.getD idx ""

/-- `_safe_int(idx, default=0)`: int(parts[idx]) when in range and parsable,
else 0 (the try/except swallows ValueError/TypeError). -/
def safeInt (parts : List String) (idx : Nat) : Int :=
  if idx < parts.length then (pyInt? (parts.getD idx "")).getD 0 else 0

/-- Python `s or None`: empty string becomes None. -/
def strOrNone (s : String) : Option String :=
  if s = "" then none else some s

/-! ## Stored-procedure result rows and decoded data -/

/-- One result row from the executor stored procedure: the Result and Msg
columns, already read through row.get("Result", row.get("RESULT", "")). -/
structure ResultRow where
  result : String
  msg : String
deriving Repr, DecidableEq

/-- PrintResultData (app/schemas/print_schema.py): every field is
Optional with default None. -/
structure PrintResultData where
  supplier_name : Option String := none
  traceability : Option String := none
  serial_no : Option String := none
  company_name : Option String := none
  tag_type : Option String := none
  print_date : Option String := none
  barcode_lot1 : Option String := none
  barcode_lot2 : Option String := none
  serial_no_2 : Option String := none
  print_time : Option String := none
  no_of_tags_stock_in : Option Int := none
  total_qty_stock_in : Option Int := none
deriving Repr, DecidableEq

/-- The KANBAN_PRINT layout branch of _parse_print_result
(len(parts) >= 13). -/
def printFullLayout (parts : List String) : PrintResultData :=
  { supplier_name := some (safeStr parts 1)
    traceability := some (safeStr parts 2)
    serial_no := some (safeStr parts 3)
    company_name := some (safeStr parts 4)
    tag_type := some (safeStr parts 5)
    print_date := some (safeStr parts 6)
    barcode_lot1 := some (safeStr parts 7)
    barcode_lot2 := strOrNone (safeStr parts 8)
    serial_no_2 := strOrNone (safeStr parts 9)
    print_time := some (safeStr parts 10)
    no_of_tags_stock_in := some (safeInt parts 11)
    total_qty_stock_in := some (safeInt parts 12) }

/-- The KANBAN_RE_PRINT layout branch of _parse_print_result
(11 <= len(parts) < 13): no lot2 / serial2 fields. -/
def printReducedLayout (parts : List String) : PrintResultData :=
  { supplier_name := some (safeStr parts 1)
    traceability := some (safeStr parts 2)
    serial_no := some (safeStr parts 3)
    company_name := some (safeStr parts 4)
    tag_type := some (safeStr parts 5)
    print_date := some (safeStr parts 6)
    barcode_lot1 := some (safeStr parts 7)
    barcode_lot2 := none
    serial_no_2 := none
    print_time := some (safeStr parts 8)
    no_of_tags_stock_in := some (safeInt parts 9)
    total_qty_stock_in := some (safeInt parts 10) }

/-- The minimal / unknown layout branch of _parse_print_result
(len(parts) < 11): still a success, remaining fields keep their
schema default None. -/
def printMinimalLayout (parts : List String) : PrintResultData :=
  { supplier_name := some (safeStr parts 1)
    traceability := some (safeStr parts 2)
    serial_no := some (safeStr parts 3)
    barcode_lot1 := if 7 < parts.length then some (safeStr parts 7) else none }

/-- print_service._parse_print_result: decode the tilde-delimited Result
column of the print / re-print stored procedure into
(success, message, data). -/
def parse_print_result : Option ResultRow → Bool × String × Option PrintResultData
  | none => (false, "No result from stored procedure", none)
  | some row =>
    if pyStartsWith row.result 'Y' = false then
      (false, pyOr (pyOr row.result row.msg) "Print failed", none)
    else
      let parts := pySplit '~' row.result
      let data :=
        if 13 ≤ parts.length then printFullLayout parts
        else if 11 ≤ parts.length then printReducedLayout parts
        else printMinimalLayout parts
      (true, pyOr row.msg "QR Tag Printed Successfully!", some data)

/-- ReworkPrintResultData (app/schemas/rework_schema.py). -/
structure ReworkPrintResultData where
  barcode : Option String := none
  print_time : Option String := none
  serial_no : Option String := none
  no_of_tags_stock_in : Option Int := none
  total_qty_stock_in : Option Int := none
  tag_type : Option String := none
  print_date : Option String := none
deriving Repr, DecidableEq

/-- rework_service._parse_rework_result: decode the rework
stored-procedure result (Y~Barcode~PrintTime~SerialNo~CountTags~
TotalTags~TagType~PrintDate) into (success, message, data). -/
def parse_rework_result : Option ResultRow → Bool × String × Option ReworkPrintResultData
  | none => (false, "No result from stored procedure", none)
  | some row =>
    if pyStartsWith row.result 'Y' = false then
      (false, pyOr (pyOr row.result row.msg) "Rework print failed", none)
    else
      let parts := pySplit '~' row.result
      (true, pyOr row.msg "QR Tag Printed Successfully!",
        some { barcode := some (safeStr parts 1)
               print_time := some (safeStr parts 2)
               serial_no := some (safeStr parts 3)
               no_of_tags_stock_in := some (safeInt parts 4)
               total_qty_stock_in := some (safeInt parts 5)
               tag_type := some (safeStr parts 6)
               print_date := some (safeStr parts 7) })

/-! ## Re-print orchestration (print_service.reprint_tag) -/

/-- KanbanPrintResponse (app/schemas/print_schema.py). -/
structure KanbanPrintResponse where
  success : Bool
  message : String
  data : Option PrintResultData := none
deriving Repr, DecidableEq

/-- Row returned by traceability_repo.validate_device_supervisor; only the
columns the orchestrators consult are listed (Option = SQL NULL).
SupplierCode comes through ISNULL(...,'') and is never NULL. -/
structure SupervisorRow where
  supplierCode : String := ""
  supplierPlantCode : Option String := none
  packingStation : Option String := none
  userID : String := ""
  username : String := ""
  plantName : String := ""
deriving Repr, DecidableEq

/-- Request body for KANBAN_RE_PRINT: supervisor credentials plus the
print parameters (app/schemas/print_schema.py KanbanRePrintRequest). -/
structure ReprintRequest where
  supervisor_user_id : String
  supervisor_password : String
  company_code : Option String := none
  plant_code : String
  station_no : String
  supplier_code : String
  customer_code : Option String := none
  supplier_part_no : String
  part_no : String
  lot_no_1 : String
  lot_no_2 : Option String := some ""
  tag_type : Option String := none
  weight : Option Float := none
  qty : Option Int := none
  is_mixed_lot : Bool := false
  running_sn_no : Option String := none
  rm_material : Option String := none
  printed_by : String
  old_barcode : String
  gross_weight : Option String := none

/-- External collaborators of print_service: the supervisor lookup
(traceability_repo.validate_device_supervisor) and the KANBAN_RE_PRINT
stored-procedure executor (print_repo.kanban_reprint). -/
structure PrintEnv where
  validate_device_supervisor : String → String → Option SupervisorRow
  kanban_reprint : ReprintRequest → Option ResultRow

/-- The guard `sup_row is None or not sup_row.get("SupplierPlantCode")`:
no row, a NULL plant code, or an empty plant code all fail. -/
def supervisorAuthFailed (sup : Option SupervisorRow) : Bool :=
  match sup with
  | none => true
  | some r =>
    match r.supplierPlantCode with
    | none => true
    | some s => s = ""

/-- print_service.reprint_tag.  The second component records whether the
external executor (print_repo.kanban_reprint) was invoked: the source
calls it exactly on the path that passes the supervisor check. -/
def reprint_tag (env : PrintEnv) (req : ReprintRequest) :
    KanbanPrintResponse × Bool :=
  let sup := env.validate_device_supervisor req.supervisor_user_id req.supervisor_password
  if supervisorAuthFailed sup then
    ({ success := false
       message := "Supervisor authentication failed or insufficient rights"
       data := none }, false)
  else
    let row := env.kanban_reprint req
    let r := parse_print_result row
    ({ success := r.1, message := r.2.1, data := r.2.2 }, true)

/-! ## Rework orchestration (rework_service) -/

/-- Row returned by rework_repo.validate_tag (stored procedure
PRC_Print_Rework_Kanban @TYPE = VALIDATE_TAG); typed columns,
Option = SQL NULL / absent key. -/
structure ReworkTagRow where
  resultCol : Option String := none
  msgCol : Option String := none
  supplierCode : Option String := none
  vname : Option String := none
  supplierPartNo : Option String := none
  supplierPartName : Option String := none
  partNo : Option String := none
  itdsc : Option String := none
  lotNo1 : Option String := none
  lotNo2 : Option String := none
  tagType : Option String := none
  weight : Option Float := none
  runningSNNo : Option String := none
  barcode : Option String := none
  packSize : Option Int := none
  qty : Option Int := none
  shift : Option String := none
  traceability : Option String := none
  rwk : Option String := none
  companyName : Option String := none
  printDate : Option String := none
  toleranceWeight : Option Float := none
  weighingScale : Option String := none
  imageName : Option String := none
  binWeight : Option Float := none
  binToleranceWeight : Option Float := none

/-- ReworkValidateTagData (app/schemas/rework_schema.py). -/
structure ReworkValidateTagData where
  supplier_code : Option String := none
  supplier_name : Option String := none
  supplier_part_no : Option String := none
  supplier_part_name : Option String := none
  part_no : Option String := none
  part_description : Option String := none
  lot_no_1 : Option String := none
  lot_no_2 : Option String := none
  tag_type : Option String := none
  weight : Option Float := none
  running_sn_no : Option String := none
  barcode : Option String := none
  pack_size : Option Int := none
  qty : Option Int := none
  shift : Option String := none
  traceability : Option String := none
  tag_type_label : Option String := none
  company_name : Option String := none
  print_date : Option String := none
  supplier_part_image : Option String := none
  tolerance_weight : Option Float := none
  weighing_scale : Option String := none
  image_name : Option String := none
  bin_weight : Option Float := none
  bin_tolerance_weight : Option Float := none

/-- ReworkValidateTagResponse (app/schemas/rework_schema.py). -/
structure ReworkValidateTagResponse where
  success : Bool
  message : String
  data : Option ReworkValidateTagData := none

/-- ReworkPrintResponse (app/schemas/rework_schema.py). -/
structure ReworkPrintResponse where
  success : Bool
  message : String
  data : Option ReworkPrintResultData := none
deriving Repr, DecidableEq

/-- Request body for the rework KANBAN_PRINT
(app/schemas/rework_schema.py ReworkPrintRequest):
the barcode of the tag being reworked plus the print parameters. -/
structure ReworkRequest where
  barcode : String
  company_code : Option String := none
  plant_code : String
  station_no : String
  supplier_code : String
  customer_code : Option String := none
  supplier_part_no : String
  part_no : String
  lot_no_1 : String
  lot_no_2 : Option String := some ""
  tag_type : Option String := none
  weight : Option Float := none
  qty : Option Int := none
  is_mixed_lot : Bool := false
  running_sn_no : Option String := none
  rm_material : Option String := none
  printed_by : String
  gross_weight : Option String := none

/-- External collaborators of rework_service: the VALIDATE_TAG lookup and
the rework KANBAN_PRINT stored-procedure executor (rework_repo). -/
structure ReworkEnv where
  validate_tag_lookup : String → Option String → Option ReworkTagRow
  rework_exec : ReworkRequest → Option ResultRow

/-- rework_service.validate_tag: resolve a barcode to an existing,
not-yet-dispatched tag record and return its details for auto-fill. -/
def validate_tag (env : ReworkEnv) (barcode : String)
    (supplier_code : Option String) : ReworkValidateTagResponse :=
  match env.validate_tag_lookup barcode supplier_code with
  | none =>
    { success := false
      message := "No tag found for the scanned barcode"
      data := none }
  | some row =>
    if pyStartsWith (row.resultCol.getD "") 'N' then
      { success := false
        message := row.msgCol.getD "Tag does not exist or has been dispatched"
        data := none }
    else
      { success := true
        message := "Tag validated successfully – details auto-filled"
        data := some
          { supplier_code := row.supplierCode
            supplier_name := row.vname
            supplier_part_no := row.supplierPartNo
            supplier_part_name := row.supplierPartName
            part_no := row.partNo
            part_description := row.itdsc
            lot_no_1 := row.lotNo1
            lot_no_2 := row.lotNo2
            tag_type := row.tagType
            weight := row.weight
            running_sn_no := row.runningSNNo
            barcode := row.barcode
            pack_size := row.packSize
            qty := row.qty
            shift := row.shift
            traceability := row.traceability
            tag_type_label := some (match row.rwk with
              | some s => if s = "" then "RWK" else s
              | none => "RWK")
            company_name := row.companyName
            print_date := row.printDate
            supplier_part_image := none
            tolerance_weight := row.toleranceWeight
            weighing_scale := row.weighingScale
            image_name := row.imageName
            bin_weight := row.binWeight
            bin_tolerance_weight := row.binToleranceWeight } }

/-- rework_service.rework_print.  The second component records whether
the external executor (rework_repo.rework_print) was invoked: the
source calls it unconditionally and only then parses its result. -/
def rework_print (env : ReworkEnv) (req : ReworkRequest) :
    ReworkPrintResponse × Bool :=
  let row := env.rework_exec req
  let r := parse_rework_result row
  ({ success := r.1, message := r.2.1, data := r.2.2 }, true)

/-! ## Field lock registry (traceability_repo section 6) -/

/-- One entry of the in-memory _field_lock_states dict. -/
structure LockState where
  locked : Bool
  locked_at : String
  lot_lock_type : String
deriving Repr, DecidableEq

/-- The module-level _field_lock_states dict, modelled extensionally as a
map from lock-key strings to entries (none = key absent). -/
def LockRegistry : Type := String → Option LockState

/-- External collaborator of the lock functions: the
TM_Supplier_Lot_Structure lookup (traceability_repo.get_lot_lock_type),
returning ISNULL(LotLockType,'Enable') when a row exists. -/
structure LockEnv where
  get_lot_lock_type : String → Option String

/-- The f-string lock key: supplier_part_no, supplier_code, plant_code and
station_no joined with colons. -/
def lockKey (supplier_part_no supplier_code plant_code station_no : String) :
    String :=
  supplier_part_no ++ ":" ++ supplier_code ++ ":" ++ plant_code ++ ":" ++ station_no

/-- traceability_repo.lock_fields: consult the lot-lock policy, refuse on a
missing row or a Disable policy, otherwise register a locked entry under
the key.  `now` models str(datetime.now()).  Returns the (success,
lot_lock_type) pair of the source together with the registry it leaves
behind. -/
def lock_fields (env : LockEnv) (now : String) (reg : LockRegistry)
    (supplier_part_no supplier_code plant_code station_no : String) :
    (Bool × Option String) × LockRegistry :=
  match env.get_lot_lock_type supplier_part_no with
  | none => ((false, none), reg)
  | some t =>
    if t = "Disable" then ((false, some t), reg)
    else
      let k := lockKey supplier_part_no supplier_code plant_code station_no
      ((true, some t),
        fun k2 => if k2 = k then
          some { locked := true, locked_at := now, lot_lock_type := t }
        else reg k2)

/-- traceability_repo.unlock_fields: delete the entry when present and
return True unconditionally. -/
def unlock_fields (reg : LockRegistry)
    (supplier_part_no supplier_code plant_code station_no : String) :
    Bool × LockRegistry :=
  let k := lockKey supplier_part_no supplier_code plant_code station_no
  (true, fun k2 => if k2 = k then none else reg k2)

/-- traceability_repo.is_fields_locked: the key is present and its entry
has locked = True. -/
def is_fields_locked (reg : LockRegistry)
    (supplier_part_no supplier_code plant_code station_no : String) : Bool :=
  match reg (lockKey supplier_part_no supplier_code plant_code station_no) with
  | some st => st.locked
  | none => false

/-! ## Login (traceability_repo.validate_user_pc, traceability_service.login) -/

/-- Row of the path-1 admin query: TM_Supplier_UserMaster joined with
TM_Group, filtered on ISNULL(IsSupplier,'') = 'Y'. -/
structure AdminUserRow where
  userID : String
  username : String
  password : String
  emailId : Option String := none
  groupID : Option Int := none
  groupName : Option String := none
deriving Repr, DecidableEq

/-- Row of the path-2 end-user query: TM_Supplier_End_User joined with
TM_Supplier_GROUP and LEFT JOINed with TM_Supplier_Plant; plantName is
ISNULL(P.PlantName,'') so it is an empty string (never NULL) when the
plant enrichment row is missing. -/
structure EndUserRow where
  userID : String
  username : String
  password : String
  emailId : Option String := none
  groupID : Option Int := none
  groupName : Option String := none
  supplierCode : Option String := none
  densoPlant : Option String := none
  supplierPlantCode : Option String := none
  packingStation : Option String := none
  plantName : String := ""
deriving Repr, DecidableEq

/-- The dict validate_user_pc returns: either a full user row with
RESULT = Y, or the two-key failure dict with RESULT = N and MSG. -/
structure UserPcRow where
  RESULT : String
  MSG : Option String := none
  UserID : Option String := none
  USERNAME : Option String := none
  PASSWORD : Option String := none
  EmailId : Option String := none
  GroupID : Option Int := none
  GroupName : Option String := none
  IsSupplier : Option String := none
  SupplierCode : Option String := none
  DensoPlant : Option String := none
  SupplierPlantCode : Option String := none
  PackingStation : Option String := none
  PlantName : Option String := none
deriving Repr, DecidableEq

/-- External collaborators of the login path: the SHA-256-based
password_utils.hash_password and the three database lookups of
traceability_repo.validate_user_pc (admin credential query,
TM_SuppUser_SuppCode_Mapping existence check, end-user credential
query).  The lookups take (user_id, hashed_password). -/
structure AuthEnv where
  hash_password : String → String
  admin_lookup : String → String → Option AdminUserRow
  mapping_exists : String → Bool
  end_user_lookup : String → String → Option EndUserRow

/-- traceability_repo.validate_user_pc: admin path first (requiring a
supplier-code mapping row), then the lenient end-user path. -/
def validate_user_pc (env : AuthEnv) (user_id password : String) :
    Option UserPcRow :=
  let hashed := env.hash_password password
  match env.admin_lookup user_id hashed with
  | some row =>
    if env.mapping_exists user_id then
      some { RESULT := "Y", UserID := some row.userID
             USERNAME := some row.username, PASSWORD := some row.password
             EmailId := row.emailId, GroupID := row.groupID
             GroupName := row.groupName, IsSupplier := some "Y"
             SupplierCode := some "", DensoPlant := some ""
             SupplierPlantCode := some "", PackingStation := some ""
             PlantName := some "" }
    else
      some { RESULT := "N", MSG := some "No User mapped with supplier" }
  | none =>
    match env.end_user_lookup user_id hashed with
    | some row =>
      some { RESULT := "Y", UserID := some row.userID
             USERNAME := some row.username, PASSWORD := some row.password
             EmailId := row.emailId, GroupID := row.groupID
             GroupName := row.groupName, IsSupplier := some "N"
             SupplierCode := row.supplierCode, DensoPlant := row.densoPlant
             SupplierPlantCode := row.supplierPlantCode
             PackingStation := row.packingStation
             PlantName := some row.plantName }
    | none => none

/-- LoginUserData (app/schemas/traceability_schema.py). -/
structure LoginUserData where
  user_id : String
  user_name : String
  password : String
  email_id : Option String := none
  group_id : Option Int := none
  group_name : Option String := none
  is_supplier : Option String := none
  supplier_code : Option String := none
  denso_plant : Option String := none
  supplier_plant_code : Option String := none
  packing_station : Option String := none
  plant_name : Option String := none
deriving Repr, DecidableEq

/-- LoginResponse (app/schemas/traceability_schema.py): success, message
and data only.  The service also passes access_token / refresh_token
keyword arguments, but the schema declares no such fields, so pydantic
drops them and the response never carries tokens. -/
structure LoginResponse where
  success : Bool
  message : String
  data : Option LoginUserData := none
deriving Repr, DecidableEq

/-- traceability_service.login: fail unless the lookup produced a row with
RESULT = Y, taking the failure message from the row MSG when present. -/
def login (env : AuthEnv) (user_id password : String) : LoginResponse :=
  match validate_user_pc env user_id password with
  | none =>
    { success := false, message := "Invalid user ID or password", data := none }
  | some row =>
    if row.RESULT ≠ "Y" then
      { success := false
        message := row.MSG.getD "Invalid user ID or password"
        data := none }
    else
      { success := true
        message := "Login successful"
        data := some
          { user_id := row.UserID.getD ""
            user_name := row.USERNAME.getD ""
            password := row.PASSWORD.getD ""
            email_id := row.EmailId
            group_id := row.GroupID
            group_name := row.GroupName
            is_supplier := row.IsSupplier
            supplier_code := row.SupplierCode
            denso_plant := row.DensoPlant
            supplier_plant_code := row.SupplierPlantCode
            packing_station := row.PackingStation
            plant_name := row.PlantName } }

/-! ## Sample values for concrete witnesses -/

/-- A lock environment with one Enable part, one Disable part, and no
row for any other part. -/
def sampleLockEnv : LockEnv :=
  { get_lot_lock_type := fun sp =>
      if sp = "PEN" then some "Enable"
      else if sp = "PDIS" then some "Disable"
      else none }

/-- The empty lock registry (fresh _field_lock_states dict). -/
def emptyLockReg : LockRegistry := fun _ => none

/-- A print environment whose supervisor lookup finds no row. -/
def samplePrintEnvDenied : PrintEnv :=
  { validate_device_supervisor := fun _ _ => none
    kanban_reprint := fun _ =>
      some { result := "Y~Acme~Tag~0001~C~NEW~22/02/2026~L1~L2~S2~15:00:00~5~360"
             msg := "OK" } }

/-- A concrete re-print request. -/
def sampleReprintReq : ReprintRequest :=
  { supervisor_user_id := "sup1", supervisor_password := "pw"
    plant_code := "P1", station_no := "S1", supplier_code := "SC"
    supplier_part_no := "SP", part_no := "PN", lot_no_1 := "L1"
    printed_by := "user1", old_barcode := "KB202602050001" }

/-- A rework environment whose tag lookup finds no row for any barcode. -/
def sampleReworkEnvNoTag : ReworkEnv :=
  { validate_tag_lookup := fun _ _ => none
    rework_exec := fun _ => none }

/-- A concrete rework print request. -/
def sampleReworkReq : ReworkRequest :=
  { barcode := "KB202602050002", plant_code := "P1", station_no := "S1"
    supplier_code := "SC", supplier_part_no := "SP", part_no := "PN"
    lot_no_1 := "L1", printed_by := "user1" }

/-- A concrete admin row as returned by the path-1 query. -/
def sampleAdminRow : AdminUserRow :=
  { userID := "admin1", username := "Admin One", password := "h#adminpw" }

/-- An auth environment in which the credential matches an admin record
but no supplier-code mapping row exists for the user. -/
def sampleAuthEnvUnmapped : AuthEnv :=
  { hash_password := fun s => "h#" ++ s
    admin_lookup := fun u h =>
      if u = "admin1" && h = "h#adminpw" then some sampleAdminRow else none
    mapping_exists := fun _ => false
    end_user_lookup := fun _ _ => none }

/-- The 13-field success vector of spec section 8. -/
def sampleFullVec : String :=
  "Y~Acme~Traceability Tag~0000007~COMP01~NEW~22/02/2026~LOT123~LOT456~SN2~15:00:00~5~360"

/-! ## Claim theorems -/

/-- C1 counterexample: in a state where the scanned barcode resolves to no
existing tag record (the VALIDATE_TAG lookup returns no row, so
validate_tag fails), rework_print still invokes the external rework
executor — the claimed short-circuit before the executor call does not
exist in the code. -/
theorem rework_executor_invoked_despite_unresolved_barcode :
    (validate_tag sampleReworkEnvNoTag sampleReworkReq.barcode none).success = false ∧
    (rework_print sampleReworkEnvNoTag sampleReworkReq).2 = true :=
  ⟨rfl, rfl⟩

/-- C1 amended: the rework print path performs no tag-resolution
precondition of its own — rework_print invokes the external executor
unconditionally on every request; barcode resolution is the separate
validate_tag operation, which does short-circuit with a
tag-not-found failure (success = false, no data) when the external
lookup returns no row. -/
theorem rework_print_unconditional_validate_tag_short_circuits
    (env : ReworkEnv) (req : ReworkRequest) (barcode : String)
    (sc : Option String) (h : env.validate_tag_lookup barcode sc = none) :
    (rework_print env req).2 = true ∧
    validate_tag env barcode sc =
      { success := false
        message := "No tag found for the scanned barcode"
        data := none } := by
  refine ⟨rfl, ?_⟩
  simp [validate_tag, h]

/-- C1 amended witness at a concrete environment and request. -/
theorem rework_print_unconditional_validate_tag_short_circuits_witness :
    sampleReworkEnvNoTag.validate_tag_lookup "KB202602050002" none = none ∧
    (rework_print sampleReworkEnvNoTag sampleReworkReq).2 = true ∧
    (validate_tag sampleReworkEnvNoTag "KB202602050002" none).success = false := by
  have h := rework_print_unconditional_validate_tag_short_circuits
    sampleReworkEnvNoTag sampleReworkReq "KB202602050002" none rfl
  exact ⟨rfl, h.1, by rw [h.2]⟩

/-- C2: when the supervisor lookup returns no row or a row whose
SupplierPlantCode is NULL or empty, reprint_tag returns the
authorization-failure response (success = false, data = none) without
invoking the executor, and the result does not depend on the
executor at all. -/
theorem reprint_auth_failure_zero_call (env : PrintEnv) (req : ReprintRequest)
    (h : supervisorAuthFailed
      (env.validate_device_supervisor req.supervisor_user_id
        req.supervisor_password) = true) :
    reprint_tag env req =
      ({ success := false
         message := "Supervisor authentication failed or insufficient rights"
         data := none }, false) ∧
    ∀ exec1 exec2 : ReprintRequest → Option ResultRow,
      reprint_tag { env with kanban_reprint := exec1 } req =
      reprint_tag { env with kanban_reprint := exec2 } req := by
  constructor
  · simp [reprint_tag, h]
  · intro exec1 exec2
    simp [reprint_tag, h]

/-- C2 witness at a concrete environment and request. -/
theorem reprint_auth_failure_zero_call_witness :
    supervisorAuthFailed
      (samplePrintEnvDenied.validate_device_supervisor
        sampleReprintReq.supervisor_user_id
        sampleReprintReq.supervisor_password) = true ∧
    reprint_tag samplePrintEnvDenied sampleReprintReq =
      ({ success := false
         message := "Supervisor authentication failed or insufficient rights"
         data := none }, false) := by
  have h := reprint_auth_failure_zero_call samplePrintEnvDenied sampleReprintReq rfl
  exact ⟨rfl, h.1⟩

/-- C3: the lock contract — a missing lot-lock-policy row yields
(false, none) and leaves the registry unchanged; a Disable policy yields
(false, some Disable) for every key and every prior registry; any other
policy registers (locked, lockedAt = now, lotLockType = policy) under the
key and returns (true, some policy). -/
theorem lock_fields_contract (env : LockEnv) (now : String) (reg : LockRegistry)
    (sp sc pc st : String) :
    (env.get_lot_lock_type sp = none →
      lock_fields env now reg sp sc pc st = ((false, none), reg)) ∧
    (env.get_lot_lock_type sp = some "Disable" →
      lock_fields env now reg sp sc pc st = ((false, some "Disable"), reg)) ∧
    (∀ t, env.get_lot_lock_type sp = some t → t ≠ "Disable" →
      lock_fields env now reg sp sc pc st =
        ((true, some t),
          fun k2 => if k2 = lockKey sp sc pc st then
            some { locked := true, locked_at := now, lot_lock_type := t }
          else reg k2)) := by
  refine ⟨?_, ?_, ?_⟩
  · intro h
    simp [lock_fields, h]
  · intro h
    simp [lock_fields, h]
  · intro t h ht
    simp [lock_fields, h, ht]

/-- C3 witness: the three branches at concrete parts, keys and an empty
registry. -/
theorem lock_fields_contract_witness :
    lock_fields sampleLockEnv "t0" emptyLockReg "PMISS" "SC" "PC" "ST" =
      ((false, none), emptyLockReg) ∧
    lock_fields sampleLockEnv "t0" emptyLockReg "PDIS" "SC" "PC" "ST" =
      ((false, some "Disable"), emptyLockReg) ∧
    (lock_fields sampleLockEnv "t0" emptyLockReg "PEN" "SC" "PC" "ST").1 =
      (true, some "Enable") ∧
    is_fields_locked
      (lock_fields sampleLockEnv "t0" emptyLockReg "PEN" "SC" "PC" "ST").2
      "PEN" "SC" "PC" "ST" = true := by
  have h1 := (lock_fields_contract sampleLockEnv "t0" emptyLockReg "PMISS" "SC" "PC" "ST").1 rfl
  have h2 := (lock_fields_contract sampleLockEnv "t0" emptyLockReg "PDIS" "SC" "PC" "ST").2.1 rfl
  have h3 := (lock_fields_contract sampleLockEnv "t0" emptyLockReg "PEN" "SC" "PC" "ST").2.2
    "Enable" rfl (by decide)
  refine ⟨h1, h2, by rw [h3], ?_⟩
  rw [h3]
  simp [is_fields_locked]

/-- C4: unlock removes the key entry and returns true whether or not it
existed, a second unlock also returns true, and a successful lock
followed by unlock leaves the key reporting not locked. -/
theorem unlock_idempotent_and_lock_roundtrip (env : LockEnv) (now : String)
    (reg : LockRegistry) (sp sc pc st : String) :
    (unlock_fields reg sp sc pc st).2 (lockKey sp sc pc st) = none ∧
    (unlock_fields reg sp sc pc st).1 = true ∧
    (unlock_fields (unlock_fields reg sp sc pc st).2 sp sc pc st).1 = true ∧
    ((lock_fields env now reg sp sc pc st).1.1 = true →
      is_fields_locked
        (unlock_fields (lock_fields env now reg sp sc pc st).2 sp sc pc st).2
        sp sc pc st = false) := by
  refine ⟨?_, rfl, rfl, ?_⟩
  · simp [unlock_fields]
  · intro _
    simp [is_fields_locked, unlock_fields]

/-- C4 witness: lock then unlock at a concrete key, plus the double
unlock, starting from the empty registry. -/
theorem unlock_idempotent_and_lock_roundtrip_witness :
    (unlock_fields emptyLockReg "PEN" "SC" "PC" "ST").1 = true ∧
    (unlock_fields (unlock_fields emptyLockReg "PEN" "SC" "PC" "ST").2
      "PEN" "SC" "PC" "ST").1 = true ∧
    (lock_fields sampleLockEnv "t0" emptyLockReg "PEN" "SC" "PC" "ST").1.1 = true ∧
    is_fields_locked
      (unlock_fields
        (lock_fields sampleLockEnv "t0" emptyLockReg "PEN" "SC" "PC" "ST").2
        "PEN" "SC" "PC" "ST").2
      "PEN" "SC" "PC" "ST" = false := by
  have h := unlock_idempotent_and_lock_roundtrip sampleLockEnv "t0" emptyLockReg
    "PEN" "SC" "PC" "ST"
  exact ⟨h.2.1, h.2.2.1, by decide, h.2.2.2 (by decide)⟩

/-- C10: a failed lock — missing policy row or Disable policy — leaves
the registry completely unchanged, so is_fields_locked answers the same
for every key before and after the call. -/
theorem failed_lock_leaves_registry_unchanged (env : LockEnv) (now : String)
    (reg : LockRegistry) (sp sc pc st : String)
    (h : (lock_fields env now reg sp sc pc st).1.1 = false) :
    (lock_fields env now reg sp sc pc st).2 = reg ∧
    ∀ sp2 sc2 pc2 st2,
      is_fields_locked (lock_fields env now reg sp sc pc st).2 sp2 sc2 pc2 st2 =
      is_fields_locked reg sp2 sc2 pc2 st2 := by
  have hreg : (lock_fields env now reg sp sc pc st).2 = reg := by
    unfold lock_fields at h ⊢
    cases hp : env.get_lot_lock_type sp with
    | none => simp [hp]
    | some t =>
      simp only [hp] at h ⊢
      by_cases ht : t = "Disable"
      · simp [ht]
      · simp [ht] at h
  exact ⟨hreg, fun sp2 sc2 pc2 st2 => by rw [hreg]⟩

/-- C10 witness: a Disable-policy lock attempt on the empty registry
changes nothing. -/
theorem failed_lock_leaves_registry_unchanged_witness :
    (lock_fields sampleLockEnv "t0" emptyLockReg "PDIS" "SC" "PC" "ST").1.1 = false ∧
    (lock_fields sampleLockEnv "t0" emptyLockReg "PDIS" "SC" "PC" "ST").2 = emptyLockReg ∧
    is_fields_locked
      (lock_fields sampleLockEnv "t0" emptyLockReg "PDIS" "SC" "PC" "ST").2
      "PDIS" "SC" "PC" "ST" =
    is_fields_locked emptyLockReg "PDIS" "SC" "PC" "ST" := by
  have h := failed_lock_leaves_registry_unchanged sampleLockEnv "t0" emptyLockReg
    "PDIS" "SC" "PC" "ST" (by decide)
  exact ⟨by decide, h.1, h.2 "PDIS" "SC" "PC" "ST"⟩

/-- C5: for every success-marked raw result, layout selection is by field
count alone — at least 13 fields decodes with the full print layout
(secondary lot and serial fields included), at least 11 but fewer than 13
with the reduced re-print layout (barcode_lot2 and serial_no_2 absent),
and anything shorter with the minimal layout over the fields present,
still a success, with empty-string defaults for missing fields. -/
theorem decoder_layout_by_field_count (row : ResultRow)
    (h : pyStartsWith row.result 'Y' = true) :
    (parse_print_result (some row)).1 = true ∧
    (13 ≤ (pySplit '~' row.result).length →
      (parse_print_result (some row)).2.2 =
        some (printFullLayout (pySplit '~' row.result))) ∧
    ((pySplit '~' row.result).length < 13 →
      11 ≤ (pySplit '~' row.result).length →
      (parse_print_result (some row)).2.2 =
        some (printReducedLayout (pySplit '~' row.result)) ∧
      (printReducedLayout (pySplit '~' row.result)).barcode_lot2 = none ∧
      (printReducedLayout (pySplit '~' row.result)).serial_no_2 = none) ∧
    ((pySplit '~' row.result).length < 11 →
      (parse_print_result (some row)).2.2 =
        some (printMinimalLayout (pySplit '~' row.result)) ∧
      ((pySplit '~' row.result).length ≤ 7 →
        (printMinimalLayout (pySplit '~' row.result)).barcode_lot1 = none) ∧
      ((pySplit '~' row.result).length ≤ 1 →
        printMinimalLayout (pySplit '~' row.result) =
          { supplier_name := some "", traceability := some ""
            serial_no := some "", barcode_lot1 := none })) := by
  have hrun : parse_print_result (some row) =
      (true, pyOr row.msg "QR Tag Printed Successfully!",
        some (if 13 ≤ (pySplit '~' row.result).length then
            printFullLayout (pySplit '~' row.result)
          else if 11 ≤ (pySplit '~' row.result).length then
            printReducedLayout (pySplit '~' row.result)
          else printMinimalLayout (pySplit '~' row.result))) := by
    simp [parse_print_result, h]
  refine ⟨by rw [hrun], ?_, ?_, ?_⟩
  · intro h13
    rw [hrun]
    simp [if_pos h13]
  · intro hlt h11
    rw [hrun]
    rw [if_neg (by omega), if_pos h11]
    exact ⟨rfl, rfl, rfl⟩
  · intro h11
    refine ⟨?_, ?_, ?_⟩
    · rw [hrun]
      rw [if_neg (by omega), if_neg (by omega)]
    · intro h7
      simp [printMinimalLayout]
      omega
    · intro h1
      have g1 : safeStr (pySplit '~' row.result) 1 = "" :=
        List.getD_eq_default _ _ (by omega)
      have g2 : safeStr (pySplit '~' row.result) 2 = "" :=
        List.getD_eq_default _ _ (by omega)
      have g3 : safeStr (pySplit '~' row.result) 3 = "" :=
        List.getD_eq_default _ _ (by omega)
      simp [printMinimalLayout, g1, g2, g3]
      omega

/-- C5 witness: one vector per branch — 13 fields, 11 fields, and a
2-field truncated success string. -/
theorem decoder_layout_by_field_count_witness :
    pyStartsWith "Y~a" 'Y' = true ∧
    (parse_print_result (some { result := sampleFullVec, msg := "OK" })).2.2 =
      some (printFullLayout (pySplit '~' sampleFullVec)) ∧
    (parse_print_result
      (some { result := "Y~Acme~Tag~0007~C~NEW~22/02/2026~L1~15:00:00~5~360"
              msg := "" })).2.2 =
      some (printReducedLayout
        (pySplit '~' "Y~Acme~Tag~0007~C~NEW~22/02/2026~L1~15:00:00~5~360")) ∧
    (parse_print_result (some { result := "Y~a", msg := "" })).1 = true ∧
    (parse_print_result (some { result := "Y~a", msg := "" })).2.2 =
      some (printMinimalLayout (pySplit '~' "Y~a")) := by
  have hfull := decoder_layout_by_field_count { result := sampleFullVec, msg := "OK" }
    (by decide)
  have hred := decoder_layout_by_field_count
    { result := "Y~Acme~Tag~0007~C~NEW~22/02/2026~L1~15:00:00~5~360", msg := "" }
    (by decide)
  have hmin := decoder_layout_by_field_count { result := "Y~a", msg := "" } (by decide)
  exact ⟨by decide, hfull.2.1 (by decide),
    (hred.2.2.1 (by decide) (by decide)).1, hmin.1, (hmin.2.2.2 (by decide)).1⟩

/-- C6: for every success string that splits into exactly 13 fields, the
decoder succeeds with the full layout, recovering supplierName at index
1, serialNo at index 3, printDate at index 6 and barcodeLot1 at index 7;
the concrete section-8 vector is checked in the witness. -/
theorem full_layout_positional_extraction (row : ResultRow)
    (h : pyStartsWith row.result 'Y' = true)
    (h13 : (pySplit '~' row.result).length = 13) :
    parse_print_result (some row) =
      (true, pyOr row.msg "QR Tag Printed Successfully!",
        some (printFullLayout (pySplit '~' row.result))) ∧
    (printFullLayout (pySplit '~' row.result)).supplier_name =
      some ((pySplit '~' row.result).getD 1 "") ∧
    (printFullLayout (pySplit '~' row.result)).serial_no =
      some ((pySplit '~' row.result).getD 3 "") ∧
    (printFullLayout (pySplit '~' row.result)).print_date =
      some ((pySplit '~' row.result).getD 6 "") ∧
    (printFullLayout (pySplit '~' row.result)).barcode_lot1 =
      some ((pySplit '~' row.result).getD 7 "") := by
  refine ⟨?_, rfl, rfl, rfl, rfl⟩
  simp [parse_print_result, h, h13]

/-- C6 witness: the spec section-8 vector decodes to success = true,
serialNo 0000007, barcodeLot1 LOT123 and totalQtyStockIn 360. -/
theorem full_layout_positional_extraction_witness :
    pyStartsWith sampleFullVec 'Y' = true ∧
    (pySplit '~' sampleFullVec).length = 13 ∧
    parse_print_result (some { result := sampleFullVec, msg := "OK" }) =
      (true, "OK",
        some { supplier_name := some "Acme"
               traceability := some "Traceability Tag"
               serial_no := some "0000007"
               company_name := some "COMP01"
               tag_type := some "NEW"
               print_date := some "22/02/2026"
               barcode_lot1 := some "LOT123"
               barcode_lot2 := some "LOT456"
               serial_no_2 := some "SN2"
               print_time := some "15:00:00"
               no_of_tags_stock_in := some 5
               total_qty_stock_in := some 360 }) := by
  have h := full_layout_positional_extraction { result := sampleFullVec, msg := "OK" }
    (by decide) (by decide)
  refine ⟨by decide, by decide, ?_⟩
  rw [h.1]
  decide

/-- C7 counterexample: the raw string YES~boom has first field YES, not
Y, yet both decoders classify it as a success — classification is by
leading character, not by the first field being exactly Y. -/
theorem success_marker_first_field_counterexample :
    (pySplit '~' "YES~boom").getD 0 "" ≠ "Y" ∧
    (parse_print_result (some { result := "YES~boom", msg := "" })).1 = true ∧
    (parse_rework_result (some { result := "YES~boom", msg := "" })).1 = true := by
  refine ⟨by decide, by decide, by decide⟩

/-- C7 amended: both decoders classify a raw result as a success exactly
when it starts with the character Y (which holds in particular whenever
the first field is exactly Y); any other raw string yields the modeled
failure triple (false, raw-or-message reason, none) — a returned value,
never an exception. -/
theorem success_iff_leading_char (row : ResultRow) :
    ((parse_print_result (some row)).1 = true ↔
      pyStartsWith row.result 'Y' = true) ∧
    ((parse_rework_result (some row)).1 = true ↔
      pyStartsWith row.result 'Y' = true) ∧
    (pyStartsWith row.result 'Y' = false →
      parse_print_result (some row) =
        (false, pyOr (pyOr row.result row.msg) "Print failed", none) ∧
      parse_rework_result (some row) =
        (false, pyOr (pyOr row.result row.msg) "Rework print failed", none)) := by
  refine ⟨?_, ?_, ?_⟩
  · by_cases h : pyStartsWith row.result 'Y' = true
    · simp [parse_print_result, h]
    · simp only [Bool.not_eq_true] at h
      simp [parse_print_result, h]
  · by_cases h : pyStartsWith row.result 'Y' = true
    · simp [parse_rework_result, h]
    · simp only [Bool.not_eq_true] at h
      simp [parse_rework_result, h]
  · intro h
    exact ⟨by simp [parse_print_result, h], by simp [parse_rework_result, h]⟩

/-- C7 amended witness: a success-marked string, a failure-marked string
and the failure triples at concrete inputs. -/
theorem success_iff_leading_char_witness :
    (parse_print_result (some { result := "Y~a", msg := "" })).1 = true ∧
    (parse_rework_result (some { result := "N~denied", msg := "" })).1 = false ∧
    parse_print_result (some { result := "N~denied", msg := "m" }) =
      (false, "N~denied", none) := by
  have hy := success_iff_leading_char { result := "Y~a", msg := "" }
  have hn := success_iff_leading_char { result := "N~denied", msg := "m" }
  refine ⟨hy.1.mpr (by decide), by decide, ?_⟩
  rw [(hn.2.2 (by decide)).1]
  decide

/-- C8 counterexample: on the spec section-8 failure vector the decoder
returns the entire raw string N~Serial limit exceeded as the message,
not the advisory part Serial limit exceeded claimed by the spec. -/
theorem failure_vector_message_counterexample :
    (parse_print_result
      (some { result := "N~Serial limit exceeded", msg := "" })).2.1 =
        "N~Serial limit exceeded" ∧
    ("N~Serial limit exceeded" : String) ≠ "Serial limit exceeded" := by
  exact ⟨by decide, by decide⟩

/-- C8 amended: decode of the failure vector returns success = false, no
data, and the entire raw string as the message, without raising. -/
theorem failure_vector_postcondition :
    parse_print_result (some { result := "N~Serial limit exceeded", msg := "" }) =
      (false, "N~Serial limit exceeded", none) := by
  decide

/-- C9: when the credential matches a plant-level administrative record
(IsSupplier = Y path) but no supplier-code mapping row exists for the
user, login fails with the mapping message and carries no session data;
the LoginResponse schema has no token fields, so no tokens are returned
either. -/
theorem admin_without_mapping_login_fails (env : AuthEnv)
    (user_id password : String) (row : AdminUserRow)
    (hadm : env.admin_lookup user_id (env.hash_password password) = some row)
    (hmap : env.mapping_exists user_id = false) :
    login env user_id password =
      { success := false
        message := "No User mapped with supplier"
        data := none } := by
  simp [login, validate_user_pc, hadm, hmap]

/-- C9 witness: a concrete environment whose admin lookup matches but
whose mapping check is empty. -/
theorem admin_without_mapping_login_fails_witness :
    sampleAuthEnvUnmapped.admin_lookup "admin1"
      (sampleAuthEnvUnmapped.hash_password "adminpw") = some sampleAdminRow ∧
    login sampleAuthEnvUnmapped "admin1" "adminpw" =
      { success := false
        message := "No User mapped with supplier"
        data := none } := by
  exact ⟨by decide,
    admin_without_mapping_login_fails sampleAuthEnvUnmapped "admin1" "adminpw"
      sampleAdminRow (by decide) rfl⟩

end WeekendDenso
